import Mathlib

/-!
Shallow embedding of the `pkg/parallel` supervision-group core of the
CoreumFoundation/coreum-tools repository (files `group.go`, `recover.go`),
together with theorems settling the specification claims about it.

The Go state protected by `Group.mu` is modelled as a structure; each critical
section of the source (the bookkeeping part of `Spawn`, the completion handler
in `Group.runTask`, the shutdown procedure `Group.exit`) becomes a pure state
transformer.  Traces of a group are modelled by a step relation on a system
state that also tracks the multiset of spawned-but-unfinished tasks, so that
completion events are tied to actual spawns.
-/

namespace CoreumParallel

mutual
/-- Go error values relevant to this package.  `canceled` is `context.Canceled`
(the cancellation cause produced by `context.WithCancel`, which `Group` uses);
`errorf` is an error created by `errors.Errorf` with the given message;
`panicError` is `PanicError` from `recover.go` carrying the recovered panic
value; `external` is any other error value a task may return, identified by its
message. -/
inductive GoError : Type where
  | canceled : GoError
  | errorf : String → GoError
  | panicError : PanicValue → GoError
  | external : String → GoError

/-- The dynamic value passed to `panic`, as stored in `PanicError.Value`
(`recover.go`): either an error value or a non-error value (modelled by its
`fmt.Sprint` rendering, a string). -/
inductive PanicValue : Type where
  | ofError : GoError → PanicValue
  | ofString : String → PanicValue
end

deriving instance DecidableEq for GoError, PanicValue

mutual
/-- `fmt` rendering of an error value: Go's `%s` verb calls `Error()`.
`PanicError.Error` (`recover.go` line 19) returns `"panic: " + <value>`. -/
def GoError.message : GoError → String
  | .canceled => "context canceled"
  | .errorf m => m
  | .panicError v => "panic: " ++ PanicValue.display v
  | .external m => m

/-- `fmt.Sprintf("%s", value)` of a panic value: an error renders via its
`Error()` method, any other value via its string form. -/
def PanicValue.display : PanicValue → String
  | .ofError e => e.message
  | .ofString s => s
end

/-- `PanicError.Unwrap` (`recover.go` lines 25-30): returns the error passed to
`panic`, or nil if `panic` was called with something other than an error. -/
def PanicValue.unwrap : PanicValue → Option GoError
  | .ofError e => some e
  | .ofString _ => none

mutual
/-- `errors.Is(e, context.Canceled)`: true exactly on `context.Canceled`
itself and on errors unwrapping to it.  `errors.Errorf` errors and external
errors here are fundamental errors distinct from `context.Canceled`; a
`PanicError` unwraps to its value when that value is an error. -/
def GoError.isCanceled : GoError → Bool
  | .canceled => true
  | .errorf _ => false
  | .panicError v => PanicValue.unwrapIsCanceled v
  | .external _ => false

/-- Whether the error chain below a panic value reaches `context.Canceled`:
`errors.Is` follows `PanicError.Unwrap`, which yields the value when it is an
error and nil otherwise. -/
def PanicValue.unwrapIsCanceled : PanicValue → Bool
  | .ofError e => e.isCanceled
  | .ofString _ => false
end

/-- `errors.Is(err, context.Canceled)` on a possibly-nil error:
`errors.Is(nil, context.Canceled)` is false. -/
def optIsCanceled : Option GoError → Bool
  | none => false
  | some e => e.isCanceled

/-- Modelled from the spec: the `OnExit` exit-policy enum (`Continue`, `Exit`,
`Fail`) is declared in a source file not present under `src/`; only its uses in
`group.go` and in tests are.  The spec fixes exactly these three named
policies.  `other d` stands for any further value of the underlying type,
carrying the string `d` that Go's `%v` format verb renders it as (used by the
`default` branch of the completion handler's switch in `group.go`). -/
inductive OnExit : Type where
  | Continue : OnExit
  | Exit : OnExit
  | Fail : OnExit
  | other : String → OnExit

/-- The outcome of executing a task body in its goroutine: it either returns an
(optional) error or panics with a value. -/
inductive TaskOutcome : Type where
  | returns : Option GoError → TaskOutcome
  | panics : PanicValue → TaskOutcome

/-- `runTask` in `recover.go` (called `runTaskWithRecovery` at its call site in
`group.go`): executes the task with a deferred `recover`; a normal return
passes the task's error through, a panic with value `p` is returned as
`PanicError{Value: p, Stack: debug.Stack()}`. -/
def runTaskWithRecovery : TaskOutcome → Option GoError
  | .returns e => e
  | .panics v => some (.panicError v)

/-- The mutable fields of `Group` (`group.go` lines 41-52) protected by
`g.mu`, plus `cancelCount`, which counts the invocations of the
`context.CancelFunc` `g.cancel` in order to state "canceled exactly once".
`done` is a channel used only as a gate; `doneClosed` records whether the
channel currently installed in `g.done` has been closed. -/
structure Group : Type where
  running : Int
  doneClosed : Bool
  closing : Bool
  err : Option GoError
  cancelCount : Nat

/-- `NewGroup` (`group.go` lines 55-74): zero-valued fields, then
`g.done = make(chan struct{}); close(g.done)` — the gate starts closed
(released), no tasks running, no result, not closing, `cancel` never called. -/
def NewGroup : Group :=
  { running := 0, doneClosed := true, closing := false, err := none,
    cancelCount := 0 }

/-- The shutdown procedure `Group.exit` (`group.go` lines 187-199), the body
run under `g.mu`:
cancellations during shutdown are discarded; then the result is recorded if
none is yet; then, if not already closing, the group is marked closing and the
scope canceled. -/
def Group.exit (g : Group) (err : Option GoError) : Group :=
  if g.closing && optIsCanceled err then g
  else if g.err = none then
    if g.closing then { g with err := err }
    else { g with err := err, closing := true, cancelCount := g.cancelCount + 1 }
  else
    if g.closing then g
    else { g with closing := true, cancelCount := g.cancelCount + 1 }

/-- The public `Group.Exit` (`group.go` lines 207-212): take the lock and run
the shutdown procedure. -/
def Group.ExitCall (g : Group) (err : Option GoError) : Group :=
  g.exit err

/-- The bookkeeping critical section of `Group.Spawn` (`group.go` lines
122-127): when no task is running, install a fresh (open) `done` channel; then
increment `running`.  The logging and the `go g.runTask ...` launch follow
outside the lock. -/
def Group.Spawn (g : Group) : Group :=
  if g.running = 0 then { g with doneClosed := false, running := g.running + 1 }
  else { g with running := g.running + 1 }

/-- The policy dispatch of the completion handler (`group.go` lines 167-179):
a non-nil task error always goes to the shutdown procedure; a nil error, when
the group is not already closing, is handled per the task's exit policy
(`Continue` → nothing, `Exit` → shutdown with nil, `Fail` → shutdown with a
synthesized "terminated unexpectedly" error, any other value → shutdown with
the `default` branch's synthesized error `"task <name>: <policy>"`). -/
def Group.afterPolicy (g : Group) (name : String) (onExit : OnExit)
    (err : Option GoError) : Group :=
  match err with
  | some _ => g.exit err
  | none =>
    if g.closing then g
    else
      match onExit with
      | .Continue => g
      | .Exit => g.exit none
      | .Fail => g.exit (some (.errorf ("task " ++ name ++ " terminated unexpectedly")))
      | .other d => g.exit (some (.errorf ("task " ++ name ++ ": " ++ d)))

/-- The tail of the completion handler (`group.go` lines 181-184): decrement
`running`; when it reaches zero, close the `done` gate. -/
def Group.finishTask (g : Group) : Group :=
  if g.running - 1 = 0 then { g with running := g.running - 1, doneClosed := true }
  else { g with running := g.running - 1 }

/-- The critical section of `Group.runTask` (`group.go` lines 143-185) for a
task whose body produced `outcome`: the recovered error feeds the policy
dispatch, then the running count is decremented and the gate possibly
released.  (The surrounding debug logging does not touch group state.) -/
def Group.runTask (g : Group) (name : String) (onExit : OnExit)
    (outcome : TaskOutcome) : Group :=
  (g.afterPolicy name onExit (runTaskWithRecovery outcome)).finishTask

/-- `Group.Running` (`group.go` lines 215-220): snapshot of `running`. -/
def Group.Running (g : Group) : Int :=
  g.running

/-- Whether the channel `Group.Done` (`group.go` lines 224-229) returns is
currently closed (its recv would not block). -/
def Group.DoneClosed (g : Group) : Bool :=
  g.doneClosed

/-- `Group.Wait` (`group.go` lines 235-239) returns `g.err` after the `done`
gate is released; its blocking is the precondition `g.doneClosed = true` in
the theorems below. -/
def Group.Wait (g : Group) : Option GoError :=
  g.err

/-- The result-selection logic of `Group.Complete` (`group.go` lines 254-263)
once both the select and `Wait` have unblocked: a non-nil group result is
returned, otherwise the external context's `ctx.Err()` (`none` when that
context was never canceled). -/
def Group.Complete (g : Group) (ctxErr : Option GoError) : Option GoError :=
  match g.Wait with
  | some e => some e
  | none => ctxErr

/-- A group together with the list of spawned tasks whose completion handler
has not yet finished.  The list ties `complete` steps to actual spawns. -/
structure Sys : Type where
  g : Group
  pending : List (String × OnExit)

/-- The state of a freshly constructed group before any operation. -/
def Sys.init : Sys :=
  { g := NewGroup, pending := [] }

/-- One atomic critical section on a group, as scheduled in real time: a
`Spawn` call, the completion handler of one previously spawned task (with an
arbitrary outcome of its body), or a public `Exit` call.  Each holds `g.mu`
for its whole duration, so group traces are interleavings of these steps. -/
inductive Step : Sys → Sys → Prop where
  | spawn (s : Sys) (name : String) (onExit : OnExit) :
      Step s { g := s.g.Spawn, pending := (name, onExit) :: s.pending }
  | complete (s : Sys) (name : String) (onExit : OnExit)
      (outcome : TaskOutcome) (l r : List (String × OnExit))
      (hmem : s.pending = l ++ (name, onExit) :: r) :
      Step s { g := s.g.runTask name onExit outcome, pending := l ++ r }
  | exitCall (s : Sys) (err : Option GoError) :
      Step s { g := s.g.ExitCall err, pending := s.pending }

/-- States reachable from a fresh group by any interleaving of operations. -/
inductive Reachable : Sys → Prop where
  | init : Reachable Sys.init
  | step {s t : Sys} : Reachable s → Step s t → Reachable t

/-! ### Basic lemmas about the critical sections -/

theorem Group.exit_running (g : Group) (e : Option GoError) :
    (g.exit e).running = g.running := by
  unfold Group.exit; split_ifs <;> rfl

theorem Group.exit_doneClosed (g : Group) (e : Option GoError) :
    (g.exit e).doneClosed = g.doneClosed := by
  unfold Group.exit; split_ifs <;> rfl

theorem Group.exit_closing (g : Group) (e : Option GoError) :
    (g.exit e).closing = true := by
  unfold Group.exit
  split_ifs with h1 h2 h3 h4 <;> simp_all

theorem Group.exit_err_some (g : Group) (e0 : GoError) (e : Option GoError)
    (h : g.err = some e0) : (g.exit e).err = some e0 := by
  unfold Group.exit; split_ifs <;> simp_all

theorem Group.exit_cancelCount (g : Group) (e : Option GoError) :
    (g.exit e).cancelCount =
      (if g.closing = true then g.cancelCount else g.cancelCount + 1) := by
  unfold Group.exit
  split_ifs with h1 h2 h3 h4 <;> simp_all

theorem Group.Spawn_running (g : Group) : g.Spawn.running = g.running + 1 := by
  unfold Group.Spawn; split_ifs <;> rfl

theorem Group.Spawn_doneClosed (g : Group) :
    g.Spawn.doneClosed = (if g.running = 0 then false else g.doneClosed) := by
  unfold Group.Spawn; split_ifs <;> rfl

theorem Group.Spawn_closing (g : Group) : g.Spawn.closing = g.closing := by
  unfold Group.Spawn; split_ifs <;> rfl

theorem Group.Spawn_err (g : Group) : g.Spawn.err = g.err := by
  unfold Group.Spawn; split_ifs <;> rfl

theorem Group.Spawn_cancelCount (g : Group) :
    g.Spawn.cancelCount = g.cancelCount := by
  unfold Group.Spawn; split_ifs <;> rfl

theorem Group.finishTask_running (g : Group) :
    g.finishTask.running = g.running - 1 := by
  unfold Group.finishTask; split_ifs <;> rfl

theorem Group.finishTask_doneClosed (g : Group) :
    g.finishTask.doneClosed =
      (if g.running - 1 = 0 then true else g.doneClosed) := by
  unfold Group.finishTask; split_ifs <;> rfl

theorem Group.finishTask_closing (g : Group) :
    g.finishTask.closing = g.closing := by
  unfold Group.finishTask; split_ifs <;> rfl

theorem Group.finishTask_err (g : Group) : g.finishTask.err = g.err := by
  unfold Group.finishTask; split_ifs <;> rfl

theorem Group.finishTask_cancelCount (g : Group) :
    g.finishTask.cancelCount = g.cancelCount := by
  unfold Group.finishTask; split_ifs <;> rfl

/-- The policy dispatch either leaves the group untouched or runs the shutdown
procedure on some error. -/
theorem Group.afterPolicy_cases (g : Group) (name : String) (onExit : OnExit)
    (err : Option GoError) :
    g.afterPolicy name onExit err = g ∨
      ∃ e, g.afterPolicy name onExit err = g.exit e := by
  unfold Group.afterPolicy
  match err with
  | some e => exact Or.inr ⟨some e, rfl⟩
  | none =>
    split_ifs with h
    · exact Or.inl rfl
    · match onExit with
      | .Continue => exact Or.inl rfl
      | .Exit => exact Or.inr ⟨none, rfl⟩
      | .Fail => exact Or.inr ⟨_, rfl⟩
      | .other d => exact Or.inr ⟨_, rfl⟩

theorem Group.afterPolicy_running (g : Group) (name : String) (onExit : OnExit)
    (err : Option GoError) :
    (g.afterPolicy name onExit err).running = g.running := by
  rcases g.afterPolicy_cases name onExit err with h | ⟨e, h⟩ <;>
    simp [h, Group.exit_running]

theorem Group.afterPolicy_doneClosed (g : Group) (name : String)
    (onExit : OnExit) (err : Option GoError) :
    (g.afterPolicy name onExit err).doneClosed = g.doneClosed := by
  rcases g.afterPolicy_cases name onExit err with h | ⟨e, h⟩ <;>
    simp [h, Group.exit_doneClosed]

theorem Group.afterPolicy_err_some (g : Group) (e0 : GoError) (name : String)
    (onExit : OnExit) (err : Option GoError) (h : g.err = some e0) :
    (g.afterPolicy name onExit err).err = some e0 := by
  rcases g.afterPolicy_cases name onExit err with hc | ⟨e, hc⟩
  · rw [hc]; exact h
  · rw [hc]; exact g.exit_err_some e0 e h

theorem Group.exit_cancelCount_inv (g : Group) (e : Option GoError)
    (h : g.cancelCount = (if g.closing = true then 1 else 0)) :
    (g.exit e).cancelCount = (if (g.exit e).closing = true then 1 else 0) := by
  rw [Group.exit_cancelCount, Group.exit_closing, h]
  cases hcl : g.closing <;> simp

theorem Group.afterPolicy_cancelCount_inv (g : Group) (name : String)
    (onExit : OnExit) (err : Option GoError)
    (h : g.cancelCount = (if g.closing = true then 1 else 0)) :
    (g.afterPolicy name onExit err).cancelCount =
      (if (g.afterPolicy name onExit err).closing = true then 1 else 0) := by
  rcases g.afterPolicy_cases name onExit err with hc | ⟨e, hc⟩
  · rw [hc]; exact h
  · rw [hc]; exact g.exit_cancelCount_inv e h

theorem Group.runTask_err_some (g : Group) (e0 : GoError) (name : String)
    (onExit : OnExit) (outcome : TaskOutcome) (h : g.err = some e0) :
    (g.runTask name onExit outcome).err = some e0 := by
  unfold Group.runTask
  rw [Group.finishTask_err]
  exact g.afterPolicy_err_some e0 name onExit _ h

/-! ### The reachability invariant -/

/-- The state invariant of a group: `running` counts exactly the spawned tasks
whose completion handler has not yet finished (hence is never negative), the
`done` gate is closed exactly when no task is running, and the scope has been
canceled exactly once if shutdown has begun and never otherwise. -/
def Inv (s : Sys) : Prop :=
  s.g.running = (s.pending.length : Int) ∧
  (s.g.doneClosed = true ↔ s.g.running = 0) ∧
  s.g.cancelCount = (if s.g.closing = true then 1 else 0)

theorem step_inv {s t : Sys} (hstep : Step s t) (hinv : Inv s) : Inv t := by
  obtain ⟨hrun, hdone, hcc⟩ := hinv
  have hpos : (0 : Int) ≤ s.g.running := by
    rw [hrun]; exact Int.natCast_nonneg _
  cases hstep with
  | spawn name onExit =>
    refine ⟨?_, ?_, ?_⟩
    · simp only [Group.Spawn_running, List.length_cons, hrun]
      push_cast; ring
    · rw [Group.Spawn_doneClosed, Group.Spawn_running]
      constructor
      · intro h
        exfalso
        split_ifs at h with h0
        simp_all
      · intro h; exfalso; omega
    · simpa only [Group.Spawn_cancelCount, Group.Spawn_closing] using hcc
  | complete name onExit outcome l r hmem =>
    have hlen : s.g.running = (l.length : Int) + (r.length : Int) + 1 := by
      rw [hrun, hmem]
      push_cast [List.length_append, List.length_cons]
      ring
    refine ⟨?_, ?_, ?_⟩
    · simp only [Group.runTask, Group.finishTask_running,
        Group.afterPolicy_running, List.length_append]
      push_cast
      omega
    · simp only [Group.runTask, Group.finishTask_doneClosed,
        Group.finishTask_running, Group.afterPolicy_running,
        Group.afterPolicy_doneClosed]
      constructor
      · intro h
        split_ifs at h with h0
        · exact h0
        · exfalso
          have h1 := hdone.mp h
          omega
      · intro h
        rw [if_pos h]
    · simp only [Group.runTask, Group.finishTask_cancelCount,
        Group.finishTask_closing]
      exact s.g.afterPolicy_cancelCount_inv name onExit _ hcc
  | exitCall err =>
    refine ⟨?_, ?_, ?_⟩
    · simpa only [Group.ExitCall, Group.exit_running] using hrun
    · simpa only [Group.ExitCall, Group.exit_doneClosed,
        Group.exit_running] using hdone
    · simp only [Group.ExitCall]
      exact s.g.exit_cancelCount_inv err hcc

theorem reachable_inv {s : Sys} (h : Reachable s) : Inv s := by
  induction h with
  | init => exact ⟨rfl, by simp [Sys.init, NewGroup], rfl⟩
  | step _ hstep ih => exact step_inv hstep ih

/-- Any single step of the system preserves a recorded non-nil result. -/
theorem step_err_some {s t : Sys} (e0 : GoError) (hstep : Step s t)
    (h : s.g.err = some e0) : t.g.err = some e0 := by
  cases hstep with
  | spawn name onExit => simpa only [Group.Spawn_err] using h
  | complete name onExit outcome l r hmem =>
    exact s.g.runTask_err_some e0 name onExit outcome h
  | exitCall err => exact s.g.exit_err_some e0 err h

/-! ### The claims -/

/-- C9: for a newly constructed group into which zero tasks have been
spawned, the `done` gate is already closed — `Wait()` does not block — and
the returned result is nil. -/
theorem c9_empty_group_wait_nil :
    NewGroup.DoneClosed = true ∧ NewGroup.Wait = none :=
  ⟨rfl, rfl⟩

/-- C3: in the completion handler, a non-nil task error (explicit or
panic-derived) always reaches the shutdown procedure with that very error,
regardless of the exit policy; a nil error while the group is not already
closing causes no action under `Continue`, shutdown with a nil result under
`Exit`, and shutdown with an error whose message is
"task <name> terminated unexpectedly" under `Fail`. -/
theorem c3_completion_policy (g : Group) (name : String) (onExit : OnExit) :
    (∀ out e, runTaskWithRecovery out = some e →
      g.afterPolicy name onExit (runTaskWithRecovery out) = g.exit (some e)) ∧
    (g.closing = false →
      g.afterPolicy name .Continue none = g ∧
      g.afterPolicy name .Exit none = g.exit none ∧
      (g.afterPolicy name .Exit none).closing = true ∧
      g.afterPolicy name .Fail none =
        g.exit (some (.errorf ("task " ++ name ++ " terminated unexpectedly"))) ∧
      (GoError.errorf
          ("task " ++ name ++ " terminated unexpectedly")).message =
        "task " ++ name ++ " terminated unexpectedly") := by
  constructor
  · intro out e h
    rw [h]
    rfl
  · intro h
    refine ⟨?_, ?_, ?_, ?_, rfl⟩
    · simp [Group.afterPolicy, h]
    · simp [Group.afterPolicy, h]
    · simp [Group.afterPolicy, h, Group.exit_closing]
    · simp [Group.afterPolicy, h]

theorem c3_completion_policy_witness :
    NewGroup.afterPolicy "t" .Continue none = NewGroup ∧
    NewGroup.afterPolicy "t" .Exit none = NewGroup.exit none ∧
    NewGroup.afterPolicy "t" .Fail (runTaskWithRecovery
        (.returns (some (.external "boom")))) =
      NewGroup.exit (some (.external "boom")) :=
  ⟨((c3_completion_policy NewGroup "t" .Continue).2 rfl).1,
   ((c3_completion_policy NewGroup "t" .Exit).2 rfl).2.1,
   (c3_completion_policy NewGroup "t" .Fail).1
     (.returns (some (.external "boom"))) (.external "boom") rfl⟩

/-- C4: an error whose unwrap chain reaches the scope's cancellation cause
(`context.Canceled`), delivered to the shutdown procedure while `closing` is
already true — by a task completion or an `Exit` call — is discarded: the
stored result and the closing state are unchanged, so it never becomes
`Wait()`'s result. -/
theorem c4_cancellation_noise_discarded (g : Group) (name : String)
    (onExit : OnExit) (e : GoError) (h1 : g.closing = true)
    (h2 : e.isCanceled = true) :
    g.exit (some e) = g ∧
    g.ExitCall (some e) = g ∧
    (g.runTask name onExit (.returns (some e))).err = g.err ∧
    (g.runTask name onExit (.returns (some e))).closing = true ∧
    (g.runTask name onExit (.returns (some e))).Wait = g.Wait := by
  have hc : (g.closing && optIsCanceled (some e)) = true := by
    simp [h1, optIsCanceled, h2]
  have hexit : g.exit (some e) = g := by
    unfold Group.exit
    simp [hc]
  have hrt : g.runTask name onExit (.returns (some e)) = g.finishTask := by
    show (g.afterPolicy name onExit (some e)).finishTask = g.finishTask
    show ((g.exit (some e)).finishTask : Group) = g.finishTask
    rw [hexit]
  refine ⟨hexit, hexit, ?_, ?_, ?_⟩
  · rw [hrt, Group.finishTask_err]
  · rw [hrt, Group.finishTask_closing, h1]
  · rw [hrt]
    show g.finishTask.err = g.err
    exact Group.finishTask_err g

theorem c4_witness :
    (NewGroup.exit (some (.errorf "first"))).exit (some .canceled) =
      NewGroup.exit (some (.errorf "first")) :=
  (c4_cancellation_noise_discarded (NewGroup.exit (some (.errorf "first")))
    "t" .Continue .canceled rfl rfl).1

/-- C10: a task spawned with an exit-policy value other than `Continue`,
`Exit` and `Fail` that finishes with a nil error while the group is not
already closing is not ignored: the handler's `default` branch shuts the
group down with a synthesized error whose message is "task <name>: <policy>"
(where <policy> is the policy value's rendering). -/
theorem c10_unknown_policy_not_ignored (g : Group) (name d : String)
    (h : g.closing = false) :
    g.afterPolicy name (.other d) none =
      g.exit (some (.errorf ("task " ++ name ++ ": " ++ d))) ∧
    (g.afterPolicy name (.other d) none).closing = true ∧
    (GoError.errorf ("task " ++ name ++ ": " ++ d)).message =
      "task " ++ name ++ ": " ++ d := by
  have h1 : g.afterPolicy name (.other d) none =
      g.exit (some (.errorf ("task " ++ name ++ ": " ++ d))) := by
    simp [Group.afterPolicy, h]
  exact ⟨h1, by rw [h1]; exact Group.exit_closing _ _, rfl⟩

theorem c10_witness :
    NewGroup.afterPolicy "t" (.other "7") none =
      NewGroup.exit (some (.errorf "task t: 7")) :=
  (c10_unknown_policy_not_ignored NewGroup "t" "7" rfl).1

/-- C5: a task that panics with value `v` in a fresh single-task group makes
`Wait()` return the panic-capture error; that error's display string is
"panic: <v>", and its `Unwrap` yields the error `v` itself wraps when `v` is
an error value, and nothing otherwise. -/
theorem c5_panic_capture (v : PanicValue) :
    (NewGroup.Spawn.runTask "doomed" .Fail (.panics v)).DoneClosed = true ∧
    (NewGroup.Spawn.runTask "doomed" .Fail (.panics v)).Wait =
      some (.panicError v) ∧
    (GoError.panicError v).message = "panic: " ++ v.display ∧
    (∀ e, v = .ofError e → v.unwrap = some e) ∧
    (∀ s, v = .ofString s → v.unwrap = none) := by
  refine ⟨rfl, rfl, rfl, ?_, ?_⟩
  · intro e h
    rw [h]
    rfl
  · intro s h
    rw [h]
    rfl

theorem c5_witness :
    (NewGroup.Spawn.runTask "doomed" .Fail
        (.panics (.ofString "oops"))).Wait =
      some (.panicError (.ofString "oops")) ∧
    (GoError.panicError (.ofString "oops")).message = "panic: oops" ∧
    (PanicValue.ofString "oops").unwrap = none :=
  ⟨(c5_panic_capture (.ofString "oops")).2.1,
   (c5_panic_capture (.ofString "oops")).2.2.1,
   (c5_panic_capture (.ofString "oops")).2.2.2.2 "oops" rfl⟩

/-- C6: in every reachable state (every instant at which the group's lock is
free), the `done` gate is closed exactly when `runningCount` is zero;
moreover, when `runningCount` is zero, `Spawn` installs a fresh open gate
before its increment, so a stale released gate is never observed after a new
task is spawned. -/
theorem c6_idle_gate_iff_idle {s : Sys} (h : Reachable s) :
    (s.g.DoneClosed = true ↔ s.g.Running = 0) ∧
    (s.g.Running = 0 → s.g.Spawn.DoneClosed = false) := by
  have hinv := reachable_inv h
  refine ⟨hinv.2.1, ?_⟩
  intro h0
  show s.g.Spawn.doneClosed = false
  rw [Group.Spawn_doneClosed]
  simp only [Group.Running] at h0
  rw [if_pos h0]

theorem c6_witness :
    (Sys.init.g.DoneClosed = true ↔ Sys.init.g.Running = 0) ∧
    (Sys.init.g.Running = 0 → Sys.init.g.Spawn.DoneClosed = false) :=
  c6_idle_gate_iff_idle Reachable.init

/-- C8: in every reachable state, `runningCount` equals the number of `Spawn`
calls performed minus the number of spawned tasks whose completion handler
has finished (the tasks still pending, panicked tasks included), and is
therefore never negative. -/
theorem c8_running_count {s : Sys} (h : Reachable s) :
    s.g.Running = (s.pending.length : Int) ∧ 0 ≤ s.g.Running := by
  have hinv := reachable_inv h
  refine ⟨hinv.1, ?_⟩
  show (0 : Int) ≤ s.g.running
  rw [hinv.1]
  exact Int.natCast_nonneg _

theorem c8_witness :
    ({ g := Sys.init.g.Spawn,
       pending := [("t", OnExit.Continue)] } : Sys).g.Running =
      (([("t", OnExit.Continue)] : List (String × OnExit)).length : Int) ∧
    0 ≤ ({ g := Sys.init.g.Spawn,
           pending := [("t", OnExit.Continue)] } : Sys).g.Running :=
  c8_running_count
    (Reachable.step Reachable.init (Step.spawn Sys.init "t" OnExit.Continue))

/-- C7: once `Complete` has unblocked (the select over the external scope and
the group scope, then the inner `Wait`), it returns the group's terminal
result when that result is non-nil, and otherwise the external scope's
cancellation cause — which is nil when that scope was never canceled. -/
theorem c7_complete_result (g : Group) (ctxErr : Option GoError) :
    (∀ e, g.Wait = some e → g.Complete ctxErr = some e) ∧
    (g.Wait = none → g.Complete ctxErr = ctxErr) := by
  constructor
  · intro e h
    simp [Group.Complete, h]
  · intro h
    simp [Group.Complete, h]

theorem c7_witness :
    (NewGroup.exit (some (.errorf "boom"))).Complete (some .canceled) =
      some (.errorf "boom") ∧
    NewGroup.Complete none = none :=
  ⟨(c7_complete_result (NewGroup.exit (some (.errorf "boom")))
      (some .canceled)).1 (.errorf "boom") rfl,
   (c7_complete_result NewGroup none).2 rfl⟩

/-- C1 as stated is violated: an `Exit`-policy task triggers shutdown first,
recording a nil result (`closing` is true, stored result nil); a
`Continue`-policy task completing afterwards with a non-cancellation error
replaces that first recorded result, and `Wait()` returns the later error. -/
theorem c1_counterexample :
    (NewGroup.Spawn.Spawn.runTask "A" .Exit (.returns none)).closing = true ∧
    (NewGroup.Spawn.Spawn.runTask "A" .Exit (.returns none)).err = none ∧
    ((NewGroup.Spawn.Spawn.runTask "A" .Exit (.returns none)).runTask "B"
        .Continue (.returns (some (.external "boom")))).Wait =
      some (.external "boom") ∧
    ((NewGroup.Spawn.Spawn.runTask "A" .Exit (.returns none)).runTask "B"
        .Continue (.returns (some (.external "boom")))).DoneClosed = true :=
  ⟨rfl, rfl, rfl, rfl⟩

/-- C1 (amended): once a shutdown episode has begun and a non-nil result has
been recorded, no later-arriving task error or `Exit` argument changes the
stored result, and `Wait()` returns that first non-nil result.  (A nil result
recorded by an `Exit`-triggered shutdown does not enjoy this permanence: a
later non-cancellation error may replace it, as `c1_counterexample` shows.) -/
theorem c1_first_nonnil_result_permanent {s t : Sys} (e0 : GoError)
    (herr : s.g.err = some e0)
    (htrace : Relation.ReflTransGen Step s t) :
    t.g.err = some e0 ∧ t.g.Wait = some e0 := by
  induction htrace with
  | refl => exact ⟨herr, herr⟩
  | tail hst hstep ih =>
    have h := step_err_some e0 hstep ih.1
    exact ⟨h, h⟩

theorem c1_witness :
    ((NewGroup.exit (some (.errorf "boom"))).ExitCall
        (some (.errorf "later"))).err = some (.errorf "boom") :=
  (c1_first_nonnil_result_permanent
    (s := { g := NewGroup.exit (some (.errorf "boom")), pending := [] })
    (t := { g := (({ g := NewGroup.exit (some (.errorf "boom")),
                     pending := [] } : Sys)).g.ExitCall
                   (some (.errorf "later")),
            pending := [] })
    (.errorf "boom") rfl
    (Relation.ReflTransGen.single
      (Step.exitCall { g := NewGroup.exit (some (.errorf "boom")),
                       pending := [] } (some (.errorf "later"))))).1

/-- C2 as stated is violated: after a first call `Exit(nil)`, a second call
`Exit(boom)` replaces the stored result, so the first call's argument is not
the value retained. -/
theorem c2_counterexample :
    (NewGroup.ExitCall none).err = none ∧
    (NewGroup.ExitCall none).closing = true ∧
    ((NewGroup.ExitCall none).ExitCall (some (.external "boom"))).err =
      some (.external "boom") :=
  ⟨rfl, rfl, rfl⟩

/-- C2 (amended): the first `Exit` call on a group not yet shutting down
marks it closing and cancels the scope exactly once; all further `Exit` calls
change neither the closing flag nor the cancellation count, and never change
the stored result once it is non-nil.  (A stored result left nil may still be
set by a later `Exit` carrying a non-cancellation error, as
`c2_counterexample` shows.) -/
theorem c2_exit_idempotent_cancellation (g : Group) (e1 e2 : Option GoError)
    (h : g.closing = false) :
    (g.ExitCall e1).closing = true ∧
    (g.ExitCall e1).cancelCount = g.cancelCount + 1 ∧
    ((g.ExitCall e1).ExitCall e2).closing = true ∧
    ((g.ExitCall e1).ExitCall e2).cancelCount = g.cancelCount + 1 ∧
    (∀ e0, (g.ExitCall e1).err = some e0 →
      ((g.ExitCall e1).ExitCall e2).err = some e0) := by
  have h1 : (g.exit e1).closing = true := g.exit_closing e1
  have h2 : (g.exit e1).cancelCount = g.cancelCount + 1 := by
    rw [Group.exit_cancelCount, h]
    simp
  have h3 : ((g.exit e1).exit e2).cancelCount = g.cancelCount + 1 := by
    rw [Group.exit_cancelCount, h1, if_pos rfl, h2]
  exact ⟨h1, h2, Group.exit_closing _ _, h3,
    fun e0 he => Group.exit_err_some _ e0 e2 he⟩

theorem c2_witness :
    ((NewGroup.ExitCall (some (.errorf "first"))).ExitCall
        (some (.errorf "second"))).err = some (.errorf "first") ∧
    ((NewGroup.ExitCall (some (.errorf "first"))).ExitCall
        (some (.errorf "second"))).cancelCount = NewGroup.cancelCount + 1 :=
  ⟨(c2_exit_idempotent_cancellation NewGroup (some (.errorf "first"))
      (some (.errorf "second")) rfl).2.2.2.2 (.errorf "first") rfl,
   (c2_exit_idempotent_cancellation NewGroup (some (.errorf "first"))
      (some (.errorf "second")) rfl).2.2.2.1⟩

end CoreumParallel
